import Mathlib

/-!
Verification of `src/simple.c` (wachag/logsyslinuxsimpledriver): a minimal
Linux platform driver exposing one memory-mapped 8-bit register through a
misc character device.  The C functions `simplemisc_read`,
`simplemisc_write`, `simple_probe` and `simple_remove` are shallowly
embedded below; the surrounding kernel services (user/kernel copy outcome,
devm resource bookkeeping, allocation/mapping/registration outcomes) are
modelled as explicit parameters, exactly at the granularity the code
observes them.
-/

namespace SimpleDriver

/-- The errno value `ENOMEM` (12); `simple_probe` returns `-ENOMEM`
on allocation failure (line 134) and on mapping failure (line 142). -/
def ENOMEM : Int := 12

/-- Observable hardware state: the value held by the single mapped
byte-wide register, and counters of 8-bit loads (`ioread8`) and 8-bit
stores (`iowrite8`) performed on it. -/
structure HwState where
  reg : Nat
  reads : Nat
  writes : Nat
deriving Repr, DecidableEq

/-- `ioread8(priv->addr)`: one 8-bit load from the mapped register.
Returns the byte and the state with the load counted. -/
def ioread8 (s : HwState) : Nat × HwState :=
  (s.reg % 256, { s with reads := s.reads + 1 })

/-- `iowrite8(data, priv->addr)`: one 8-bit store to the mapped register. -/
def iowrite8 (b : Nat) (s : HwState) : HwState :=
  { s with reg := b % 256, writes := s.writes + 1 }

/-- Embedding of `simplemisc_read` (src/simple.c lines 80-93).
`count` is the requested length; `copyOk` is the outcome of the
one-byte `copy_to_user` (the code tests whether it returned 1, i.e.
one byte could not be copied).  Result: the `ssize_t` return value,
the byte delivered to user space (`none` when no copy happened or the
copy failed), and the hardware state after the call. -/
def simplemisc_read (count : Nat) (copyOk : Bool) (s : HwState) :
    Int × Option Nat × HwState :=
  if count = 0 then (0, none, s)
  else
    let r := ioread8 s
    if copyOk then (1, some r.1, r.2)
    else (0, none, r.2)

/-- Embedding of `simplemisc_write` (src/simple.c lines 99-106).
`copyOk` is the outcome of the one-byte `copy_from_user`; `userByte`
is the byte in the user buffer.  Result: the `ssize_t` return value
and the hardware state after the call. -/
def simplemisc_write (count : Nat) (copyOk : Bool) (userByte : Nat)
    (s : HwState) : Int × HwState :=
  if count = 0 then (0, s)
  else if copyOk then (1, iowrite8 userByte s)
  else (0, s)

/-- A kernel pointer value as far as the probe path can observe it:
NULL, a valid mapped address, or an ERR_PTR — a non-NULL pointer
encoding a negative errno `e`. -/
inductive KPtr where
  | null
  | valid
  | errp (e : Int)
deriving Repr, DecidableEq

/-- Outcome of a mapping request, as decided by the kernel. -/
inductive MapOutcome where
  | success
  | failure (e : Int)
deriving Repr, DecidableEq

/-- Modelled from the kernel contract of `devm_ioremap_resource`
(an external API, not part of src/): on success it returns the valid
mapped address; on failure it returns ERR_PTR(e), a non-NULL error
pointer — it never returns NULL. -/
def devm_ioremap_resource : MapOutcome → KPtr
  | MapOutcome.success => KPtr.valid
  | MapOutcome.failure e => KPtr.errp e

/-- Modelled from the kernel contract of `devm_ioremap_resource`:
the devres layer holds a reservation and mapping exactly when the
request succeeded. -/
def devm_holds_mapping : MapOutcome → Bool
  | MapOutcome.success => true
  | MapOutcome.failure _ => false

/-- Outcomes of the external steps `simple_probe` performs: whether
`devm_kzalloc` succeeds, the outcome of the mapping request passed to
`devm_ioremap_resource`, and the return value of `misc_register`
(0 on success, a negative errno on failure). -/
structure ProbeEnv where
  allocOk : Bool
  mapOutcome : MapOutcome
  miscRegisterRet : Int
deriving Repr, DecidableEq

/-- Resources and bindings held on behalf of one device instance after
a probe: the devm-allocated private struct, the devres-held mapping,
the pointer stored in `priv->addr`, the registered (published) misc
device, and the platform drvdata link. -/
structure ProbeState where
  privAllocated : Bool
  mapHeld : Bool
  addr : KPtr
  registered : Bool
  drvdataSet : Bool
deriving Repr, DecidableEq

/-- The state before any bind: nothing allocated, mapped, registered
or linked. -/
def probeInit : ProbeState :=
  { privAllocated := false, mapHeld := false, addr := KPtr.null,
    registered := false, drvdataSet := false }

/-- Embedding of `simple_probe` (src/simple.c lines 123-154):
allocate the private struct (on failure return `-ENOMEM`), store the
result of `devm_ioremap_resource` in `priv->addr`, test it against
NULL (`if(!priv->addr)`, line 140, returning `-ENOMEM` when it is
NULL), set drvdata, then register the misc device and return its
result. -/
def simple_probe (env : ProbeEnv) : Int × ProbeState :=
  if !env.allocOk then ((-ENOMEM), probeInit)
  else
    let addr := devm_ioremap_resource env.mapOutcome
    let s1 : ProbeState :=
      { probeInit with
        privAllocated := true
        addr := addr
        mapHeld := devm_holds_mapping env.mapOutcome }
    if addr = KPtr.null then ((-ENOMEM), s1)
    else
      let s2 : ProbeState := { s1 with drvdataSet := true }
      if env.miscRegisterRet = 0 then (0, { s2 with registered := true })
      else (env.miscRegisterRet, s2)

/-- Bindings held on behalf of one bound device instance as seen by
`simple_remove`: the devm-allocated private struct, the devres-held
mapping, the registered (published) misc device, and the platform
drvdata link. -/
structure DevState where
  privAllocated : Bool
  mapped : Bool
  registered : Bool
  drvdataSet : Bool
deriving Repr, DecidableEq

/-- Embedding of `simple_remove` (src/simple.c lines 159-164) as a
state transformer.  The argument is the drvdata pointer read by
`platform_get_drvdata`: `none` models a unit that was never bound
(drvdata NULL), in which case `priv->miscdev` dereferences a NULL
pointer and the call has no defined result; otherwise the misc
device is deregistered and 0 is returned. -/
def simple_remove : Option DevState → Option (Int × DevState)
  | none => none
  | some s => some (0, { s with registered := false })

/-- Teardown steps observable during an unbind. -/
inductive TeardownEv where
  | deregisterEndpoint
  | releaseMapping
  | freePrivate
deriving Repr, DecidableEq

/-- The steps `simple_remove` itself performs (line 161): it only
deregisters the misc device. -/
def simple_remove_trace : List TeardownEv :=
  [TeardownEv.deregisterEndpoint]

/-- The steps the kernel's devres layer performs after `simple_remove`
returns, in reverse order of acquisition: release the mapping, then
free the private struct (code comment, line 162). -/
def devm_release_trace : List TeardownEv :=
  [TeardownEv.releaseMapping, TeardownEv.freePrivate]

/-- The full teardown sequence of one unbind event: the driver's own
remove steps followed by the kernel's devres cleanup. -/
def unbind_trace : List TeardownEv :=
  simple_remove_trace ++ devm_release_trace

/-- `a` precedes `b` in trace `tr`: every occurrence of `b` is
strictly after some occurrence of `a`. -/
def precedes (a b : TeardownEv) (tr : List TeardownEv) : Prop :=
  ∀ j : Fin tr.length, tr.get j = b →
    ∃ i : Fin tr.length, i < j ∧ tr.get i = a

/-- A sample hardware state used to instantiate theorems with
hypotheses at concrete inputs. -/
def hw0 : HwState := { reg := 7, reads := 0, writes := 0 }

/-- Claim C1: a read or write request of length 0 returns 0 bytes
transferred, performs no hardware access (register value and both
access counters unchanged) and no user/kernel copy (nothing is
delivered to user space). -/
theorem zero_length_request_noop (copyOk : Bool) (userByte : Nat)
    (s : HwState) :
    simplemisc_read 0 copyOk s = (0, none, s) ∧
    simplemisc_write 0 copyOk userByte s = (0, s) := by
  constructor <;> simp [simplemisc_read, simplemisc_write]

/-- Claim C2: a read or write request of positive length whose
user/kernel copy succeeds performs exactly one 8-bit access on the
mapped register (one load for read, one store for write, nothing
else) and returns exactly 1 byte transferred, whatever the requested
length. -/
theorem positive_length_single_access (count userByte : Nat)
    (s : HwState) (h : 0 < count) :
    (simplemisc_read count true s).1 = 1 ∧
    (simplemisc_read count true s).2.2.reads = s.reads + 1 ∧
    (simplemisc_read count true s).2.2.writes = s.writes ∧
    (simplemisc_write count true userByte s).1 = 1 ∧
    (simplemisc_write count true userByte s).2.writes = s.writes + 1 ∧
    (simplemisc_write count true userByte s).2.reads = s.reads := by
  have hc : count ≠ 0 := by omega
  simp [simplemisc_read, simplemisc_write, ioread8, iowrite8, hc]

/-- Witness for C2 at a length-4 request on `hw0`. -/
theorem positive_length_single_access_witness :
    (simplemisc_read 4 true hw0).1 = 1 ∧
    (simplemisc_read 4 true hw0).2.2.reads = hw0.reads + 1 ∧
    (simplemisc_read 4 true hw0).2.2.writes = hw0.writes ∧
    (simplemisc_write 4 true 171 hw0).1 = 1 ∧
    (simplemisc_write 4 true 171 hw0).2.writes = hw0.writes + 1 ∧
    (simplemisc_write 4 true 171 hw0).2.reads = hw0.reads :=
  positive_length_single_access 4 171 hw0 (by decide)

/-- Claim C3: a read or write request of positive length whose
user/kernel copy fails returns 0 bytes transferred — not a negative
error code. -/
theorem copy_failure_zero_not_error (count userByte : Nat)
    (s : HwState) (h : 0 < count) :
    (simplemisc_read count false s).1 = 0 ∧
    (simplemisc_write count false userByte s).1 = 0 := by
  have hc : count ≠ 0 := by omega
  simp [simplemisc_read, simplemisc_write, hc]

/-- Witness for C3 at a length-2 request on `hw0`. -/
theorem copy_failure_zero_not_error_witness :
    (simplemisc_read 2 false hw0).1 = 0 ∧
    (simplemisc_write 2 false 5 hw0).1 = 0 :=
  copy_failure_zero_not_error 2 5 hw0 (by decide)

/-- Claim C4: for every byte value v, a successful write of v to the
mapped register followed by a read from the same register (no
intervening write) returns v, the register being a plain memory
byte. -/
theorem write_read_roundtrip (v : Nat) (s : HwState) (hv : v < 256) :
    (simplemisc_write 1 true v s).1 = 1 ∧
    (simplemisc_read 1 true (simplemisc_write 1 true v s).2).1 = 1 ∧
    (simplemisc_read 1 true (simplemisc_write 1 true v s).2).2.1 =
      some v := by
  simp [simplemisc_read, simplemisc_write, ioread8, iowrite8,
    Nat.mod_eq_of_lt hv]

/-- Witness for C4 at v = 171 on `hw0`. -/
theorem write_read_roundtrip_witness :
    (simplemisc_write 1 true 171 hw0).1 = 1 ∧
    (simplemisc_read 1 true (simplemisc_write 1 true 171 hw0).2).1 = 1 ∧
    (simplemisc_read 1 true (simplemisc_write 1 true 171 hw0).2).2.1 =
      some 171 :=
  write_read_roundtrip 171 hw0 (by decide)

/-- Claim C5 fails on the code: `devm_ioremap_resource` reports a
mapping failure as a non-NULL ERR_PTR, so the NULL check at line 140
does not fire; probe stores the error pointer as the register
address, publishes the misc endpoint and returns 0.  Evaluated here
at a mapping failure with errno -16 (EBUSY, resource already claimed)
and a succeeding `misc_register`: nothing is unwound and no
mapping-failure error is reported. -/
theorem probe_mapping_failure_publishes :
    simple_probe
      { allocOk := true, mapOutcome := MapOutcome.failure (-16),
        miscRegisterRet := 0 }
      = (0, { privAllocated := true, mapHeld := false,
              addr := KPtr.errp (-16), registered := true,
              drvdataSet := true }) := by
  decide

/-- Claim C6 fails on the code: a genuine mapping failure is silently
swallowed.  Evaluated at a mapping failure with errno -12 (ENOMEM)
and a succeeding `misc_register`: probe carries on past the dead NULL
check, publishes the endpoint and returns 0 (success) to its caller,
so this failure cause reaches the caller with no error code at all. -/
theorem probe_mapping_error_swallowed :
    (simple_probe
      { allocOk := true, mapOutcome := MapOutcome.failure (-12),
        miscRegisterRet := 0 }).1 = 0 ∧
    (simple_probe
      { allocOk := true, mapOutcome := MapOutcome.failure (-12),
        miscRegisterRet := 0 }).2.registered = true := by
  decide

/-- Claim C7: during the unbind teardown sequence the misc endpoint
is deregistered strictly before the mapping is released — every
release of the mapping in the trace is preceded by the endpoint
deregistration. -/
theorem unbind_unpublish_before_unmap :
    precedes TeardownEv.deregisterEndpoint TeardownEv.releaseMapping
      unbind_trace := by
  unfold precedes
  decide

/-- Claim C8 counterexample: invoking remove on a never-bound unit
(drvdata NULL) yields no defined result at all — the code
dereferences the NULL private pointer — so it is not rejected with a
NotBound error (no error code is returned). -/
theorem remove_unbound_no_result : simple_remove none = none := rfl

/-- Claim C8 amended: `simple_remove` performs no bound-check.  On a
never-bound unit it dereferences the NULL drvdata pointer and has no
defined result (in particular it does not return NotBound); on a
bound unit it deregisters the endpoint, leaves all other state
untouched, and returns 0.  The external platform core is relied upon
to invoke remove only on bound units. -/
theorem simple_remove_no_bound_check :
    simple_remove none = none ∧
    ∀ s : DevState,
      simple_remove (some s) = some (0, { s with registered := false }) :=
  ⟨rfl, fun _ => rfl⟩

/-- Claim C9: a write request of positive length whose user-to-kernel
copy fails performs no store to the mapped register: it returns 0
bytes transferred and leaves the hardware state (register value and
access counters) completely unchanged. -/
theorem write_copy_failure_state_unchanged (count userByte : Nat)
    (s : HwState) (h : 0 < count) :
    simplemisc_write count false userByte s = (0, s) := by
  have hc : count ≠ 0 := by omega
  simp [simplemisc_write, hc]

/-- Witness for C9 at a length-3 request on `hw0`. -/
theorem write_copy_failure_state_unchanged_witness :
    simplemisc_write 3 false 200 hw0 = (0, hw0) :=
  write_copy_failure_state_unchanged 3 200 hw0 (by decide)

/-- Claim C10: for a read request of positive length the load from
the mapped register happens before the copy to user space is
attempted: whatever the copy outcome, exactly one load is performed
(and no store), and when the copy fails the call still reports 0
bytes transferred after that one hardware access. -/
theorem read_load_before_copy (count : Nat) (copyOk : Bool)
    (s : HwState) (h : 0 < count) :
    (simplemisc_read count copyOk s).2.2.reads = s.reads + 1 ∧
    (simplemisc_read count copyOk s).2.2.writes = s.writes ∧
    (copyOk = false → (simplemisc_read count copyOk s).1 = 0) := by
  have hc : count ≠ 0 := by omega
  cases copyOk <;> simp [simplemisc_read, ioread8, hc]

/-- Witness for C10: a failing copy on a length-2 read of `hw0`. -/
theorem read_load_before_copy_witness :
    (simplemisc_read 2 false hw0).2.2.reads = hw0.reads + 1 ∧
    (simplemisc_read 2 false hw0).2.2.writes = hw0.writes ∧
    (false = false → (simplemisc_read 2 false hw0).1 = 0) :=
  read_load_before_copy 2 false hw0 (by decide)

end SimpleDriver
